import Mathlib

/-!
Verification development for the Vault Engine of vault-crm
(src/src-tauri/src/db.rs, commands.rs, lib.rs).

Shallow embedding conventions:
* Byte buffers are `List Nat` (each element a byte value).
* The AES-256-GCM primitive comes from the external aes_gcm crate, so its
  internals are not part of this repository; it is modelled generically as a
  CTR-style keystream XORed into the plaintext plus a deterministic 16-byte
  authentication tag (`AeadCore`).  Every theorem quantifying over an
  `AeadCore` therefore covers the concrete AES-256-GCM instantiation.
  Likewise Argon2id key derivation (argon2 crate) is an abstract
  deterministic function parameter.
* Random values drawn from OsRng (nonces, random keys) are explicit
  parameters of the embedded functions.
* The filesystem slice the vault touches is the record `VaultFs`; file
  operations performed by a function are additionally reported as a trace of
  `FsOp` values where a claim is about the shape of the I/O.
-/

namespace VaultCRM

/-- Byte-wise XOR of two buffers, truncating to the shorter one
(the CTR layer of the AEAD model). -/
def xorBytes (a b : List Nat) : List Nat :=
  List.zipWith (fun x y => x ^^^ y) a b

/-- Model of the AEAD primitive used by db.rs (AES-256-GCM from the aes_gcm
crate, external to this repository).  `ks key nonce len` is the keystream of
length `len`, `tagOf key nonce ct` the 16-byte authentication tag; both are
arbitrary deterministic functions, which covers the concrete cipher. -/
structure AeadCore where
  ks : List Nat → List Nat → Nat → List Nat
  tagOf : List Nat → List Nat → List Nat → List Nat
  ks_length : ∀ k n l, (ks k n l).length = l
  tagOf_length : ∀ k n c, (tagOf k n c).length = 16

/-- AEAD encryption: ciphertext followed by its 16-byte tag
(the value the crate call cipher.encrypt returns). -/
def aeadSeal (A : AeadCore) (key nonce m : List Nat) : List Nat :=
  let ct := xorBytes m (A.ks key nonce m.length)
  ct ++ A.tagOf key nonce ct

/-- AEAD decryption: splits off the trailing 16-byte tag, recomputes it over
the ciphertext and rejects on mismatch; the crate maps every authentication
failure to the single opaque error value rendered "aead::Error". -/
def aeadOpen (A : AeadCore) (key nonce buf : List Nat) : Except String (List Nat) :=
  if buf.length < 16 then Except.error "aead::Error"
  else
    let ct := buf.take (buf.length - 16)
    let t := buf.drop (buf.length - 16)
    if A.tagOf key nonce ct = t then
      Except.ok (xorBytes ct (A.ks key nonce ct.length))
    else Except.error "aead::Error"

/-- Embedding of db.rs encrypt_file: the random 96-bit nonce drawn from OsRng
is an explicit 12-byte parameter; the output is nonce followed by
ciphertext-with-tag. -/
def encrypt_file (A : AeadCore) (key nonce plaintext : List Nat) : List Nat :=
  nonce ++ aeadSeal A key nonce plaintext

/-- Embedding of db.rs decrypt_file: rejects buffers shorter than the 12-byte
nonce with the literal error string of the source, then opens the remainder
under the nonce taken from the first 12 bytes. -/
def decrypt_file (A : AeadCore) (key ciphertext : List Nat) : Except String (List Nat) :=
  if ciphertext.length < 12 then Except.error "Encrypted payload too short"
  else aeadOpen A key (ciphertext.take 12) (ciphertext.drop 12)

/-- Concrete executable AEAD instance used to witness theorems that
quantify over the cipher core. -/
def aead0 : AeadCore where
  ks := fun _ _ l => List.replicate l 7
  tagOf := fun _ _ _ => List.replicate 16 3
  ks_length := by intro k n l; simp
  tagOf_length := by intro k n c; simp

/-- Concrete all-zero 32-byte key for witnesses. -/
def key0 : List Nat := List.replicate 32 0

/-- Concrete all-zero 12-byte nonce for witnesses. -/
def nonce0 : List Nat := List.replicate 12 0

/-- Concrete deterministic stand-in for Argon2id key derivation in
witnesses. -/
def kdf0 : String → List Nat := fun _ => List.replicate 32 1

/-! Base64 (STANDARD alphabet, padded), the encoding the source uses through
the base64 crate: general_purpose.STANDARD.encode when storing the key and
.decode when reading it back.  Decoding is strict: non-alphabet characters,
lengths that are not a multiple of four, misplaced padding and non-canonical
trailing bits are all rejected, matching the default crate configuration. -/

/-- Value of a character of the STANDARD base64 alphabet, none outside it. -/
def b64CharVal (c : Char) : Option Nat :=
  if 'A' ≤ c ∧ c ≤ 'Z' then some (c.toNat - 65)
  else if 'a' ≤ c ∧ c ≤ 'z' then some (c.toNat - 97 + 26)
  else if '0' ≤ c ∧ c ≤ '9' then some (c.toNat - 48 + 52)
  else if c = '+' then some 62
  else if c = '/' then some 63
  else none

/-- Alphabet character of a 6-bit value. -/
def b64Char (v : Nat) : Char :=
  if v < 26 then Char.ofNat (65 + v)
  else if v < 52 then Char.ofNat (97 + (v - 26))
  else if v < 62 then Char.ofNat (48 + (v - 52))
  else if v = 62 then '+'
  else '/'

/-- Strict base64 decoding of a character list, four characters at a time. -/
def b64DecodeGroups : List Char → Option (List Nat)
  | [] => some []
  | a :: b :: c :: d :: rest =>
    match b64CharVal a, b64CharVal b with
    | some va, some vb =>
      if c = '=' then
        if d = '=' ∧ rest = [] ∧ vb % 16 = 0 then some [va * 4 + vb / 16]
        else none
      else
        match b64CharVal c with
        | some vc =>
          if d = '=' then
            if rest = [] ∧ vc % 4 = 0 then
              some [va * 4 + vb / 16, vb % 16 * 16 + vc / 4]
            else none
          else
            match b64CharVal d with
            | some vd =>
              match b64DecodeGroups rest with
              | some tl =>
                some ((va * 4 + vb / 16) :: (vb % 16 * 16 + vc / 4) :: (vc % 4 * 64 + vd) :: tl)
              | none => none
            | none => none
        | none => none
    | _, _ => none
  | _ => none

/-- Base64 encoding of a byte list, three bytes at a time with padding. -/
def b64EncodeGroups : List Nat → List Char
  | [] => []
  | [x] => [b64Char (x / 4), b64Char (x % 4 * 16), '=', '=']
  | [x, y] => [b64Char (x / 4), b64Char (x % 4 * 16 + y / 16), b64Char (y % 16 * 4), '=']
  | x :: y :: z :: rest =>
    b64Char (x / 4) :: b64Char (x % 4 * 16 + y / 16) :: b64Char (y % 16 * 4 + z / 64) ::
      b64Char (z % 64) :: b64EncodeGroups rest

/-- Model of base64 STANDARD decode as called by get_db_key. -/
def base64_decode (s : String) : Option (List Nat) := b64DecodeGroups s.data

/-- Model of base64 STANDARD encode as called by set_db_key. -/
def base64_encode (l : List Nat) : String := String.mk (b64EncodeGroups l)

/-! Key manager: db.rs get_db_key / set_db_key over the OS keyring entry,
whose stored value is modelled as the optional string contents of the single
named secret (service VaultCRM, entry db_master_key). -/

/-- Embedding of db.rs get_db_key.  A missing entry (get_password error) is
`none` and yields ok none; a stored string is base64-decoded — a decode
failure is propagated as an error by map_err, and a decoded length other
than 32 yields ok none. -/
def get_db_key (stored : Option String) : Except String (Option (List Nat)) :=
  match stored with
  | none => Except.ok none
  | some s =>
    match base64_decode s with
    | none => Except.error "invalid base64 in keyring entry"
    | some bytes => if bytes.length ≠ 32 then Except.ok none else Except.ok (some bytes)

/-- Embedding of db.rs set_db_key: the value written to the keyring is the
base64 encoding of the key bytes. -/
def set_db_key (key : List Nat) : String := base64_encode key

/-! Vault lifecycle: the file names of db.rs, the slice of the application
data directory the engine touches, and the operations init_db,
flush_encrypted_db, setup_create_key and migrate_plain_to_encrypted. -/

/-- Fixed legacy plaintext file name (db.rs constant VAULT_DB). -/
def VAULT_DB : String := "vault.db"

/-- Fixed canonical artifact file name (db.rs constant VAULT_DB_ENCRYPTED). -/
def VAULT_DB_ENCRYPTED : String := "vault.db.encrypted"

/-- Fixed working copy file name (db.rs constant VAULT_DB_TMP). -/
def VAULT_DB_TMP : String := "vault.db.tmp"

/-- Contents of the files the vault engine touches inside the application
data directory, plus the keyring entry and the backups/ retention directory
(name and contents of each backup file). -/
structure VaultFs where
  plain : Option (List Nat)
  encrypted : Option (List Nat)
  tmp : Option (List Nat)
  plainBackup : Option (List Nat)
  keystore : Option String
  backups : List (String × List Nat)
deriving Repr, DecidableEq

/-- File operation performed against the data directory, recorded in order
so that claims about the shape of the I/O (atomic rename versus in-place
write, backup copies) can be stated. -/
inductive FsOp where
  | checkpoint
  | readFile (path : String)
  | writeFile (path : String) (content : List Nat)
  | renameFile (src dst : String)
  | copyFile (src dst : String)
deriving Repr, DecidableEq

/-- True of rename operations. -/
def FsOp.isRename : FsOp → Bool
  | FsOp.renameFile _ _ => true
  | _ => false

/-- True of copy operations (the only way backup files come into being). -/
def FsOp.isCopy : FsOp → Bool
  | FsOp.copyFile _ _ => true
  | _ => false

/-- True of a write that targets the canonical artifact path itself. -/
def FsOp.writesCanonical : FsOp → Bool
  | FsOp.writeFile p _ => p = VAULT_DB_ENCRYPTED
  | _ => false

/-- Reason of db.rs SetupReason. -/
inductive SetupReason where
  | firstRun
  | migratePlain
deriving Repr, DecidableEq

/-- Outcome of init_db: ready with the updated files (the opened connection
lives on the written working copy), a NeedSetup of InitDbError, or an
InitDbError.Other carrying the message (fatal). -/
inductive InitDbResult where
  | ready (fs : VaultFs)
  | needSetup (r : SetupReason)
  | other (msg : String)
deriving Repr, DecidableEq

/-- Embedding of db.rs init_db.  `freshDb` stands for the bytes the SQLite
schema initialisation leaves in the working copy on the key-but-no-artifact
branch, and `nonce` for the OsRng nonce of the encrypt call on that branch. -/
def init_db (A : AeadCore) (fs : VaultFs) (freshDb nonce : List Nat) : InitDbResult :=
  match get_db_key fs.keystore with
  | Except.error e => InitDbResult.other e
  | Except.ok (some key) =>
    match fs.encrypted with
    | some ct =>
      match decrypt_file A key ct with
      | Except.error e => InitDbResult.other e
      | Except.ok m => InitDbResult.ready { fs with tmp := some m }
    | none =>
      InitDbResult.ready { fs with tmp := some freshDb,
                                   encrypted := some (encrypt_file A key nonce freshDb) }
  | Except.ok none =>
    if fs.plain.isSome then InitDbResult.needSetup SetupReason.migratePlain
    else if fs.encrypted.isSome then
      InitDbResult.other "Encrypted DB exists but no key in keychain"
    else InitDbResult.needSetup SetupReason.firstRun

/-- Embedding of db.rs flush_encrypted_db: checkpoint, read the key, read the
working copy, encrypt, then write the ciphertext to the canonical artifact
path.  Returns the new files and the ordered trace of file operations a
successful run performs. -/
def flush_encrypted_db (A : AeadCore) (fs : VaultFs) (nonce : List Nat) :
    Except String (VaultFs × List FsOp) :=
  match get_db_key fs.keystore with
  | Except.error e => Except.error e
  | Except.ok none => Except.error "No key in keychain"
  | Except.ok (some key) =>
    match fs.tmp with
    | none => Except.error "working copy missing"
    | some m =>
      let ct := encrypt_file A key nonce m
      Except.ok ({ fs with encrypted := some ct },
        [FsOp.checkpoint, FsOp.readFile VAULT_DB_TMP, FsOp.writeFile VAULT_DB_ENCRYPTED ct])

/-- State left behind by the shared tail of setup_create_key: key stored in
the keyring, fresh schema bytes in the working copy, their encryption
written to the canonical artifact path. -/
def setupFinish (A : AeadCore) (key : List Nat) (fs : VaultFs) (freshDb nonce : List Nat) :
    VaultFs :=
  { fs with keystore := some (set_db_key key), tmp := some freshDb,
            encrypted := some (encrypt_file A key nonce freshDb) }

/-- Embedding of db.rs setup_create_key.  `kdf` models derive_key (Argon2id
with the fixed salt, from the external argon2 crate) and `randomKey` the
OsRng-generated key of the no-passphrase branch.  The passphrase guard is the
source check p.is_empty(). -/
def setup_create_key (A : AeadCore) (kdf : String → List Nat) (fs : VaultFs)
    (passphrase : Option String) (randomKey nonce freshDb : List Nat) :
    Except String VaultFs :=
  match passphrase with
  | some p =>
    if p.isEmpty then Except.error "Passphrase boş olamaz"
    else Except.ok (setupFinish A (kdf p) fs freshDb nonce)
  | none => Except.ok (setupFinish A randomKey fs freshDb nonce)

/-- State left behind by a successful migration: key stored, legacy bytes
encrypted into the canonical artifact, legacy file renamed aside to
vault.db.plain.backup (its content preserved, the original path emptied). -/
def migrateFinish (A : AeadCore) (key : List Nat) (fs : VaultFs) (m nonce : List Nat) :
    VaultFs :=
  { fs with keystore := some (set_db_key key),
            encrypted := some (encrypt_file A key nonce m),
            plain := none,
            plainBackup := some m }

/-- Embedding of db.rs migrate_plain_to_encrypted: requires the legacy
plaintext to exist (checked before the passphrase guard), then stores a key,
encrypts the legacy bytes into the canonical artifact and renames the legacy
file aside. -/
def migrate_plain_to_encrypted (A : AeadCore) (kdf : String → List Nat) (fs : VaultFs)
    (passphrase : Option String) (randomKey nonce : List Nat) :
    Except String VaultFs :=
  match fs.plain with
  | none => Except.error "Plain vault.db bulunamadı"
  | some m =>
    match passphrase with
    | some p =>
      if p.isEmpty then Except.error "Passphrase boş olamaz"
      else Except.ok (migrateFinish A (kdf p) fs m nonce)
    | none => Except.ok (migrateFinish A randomKey fs m nonce)

/-- Embedding of the CloseRequested branch of the window event handler in
lib.rs run: when a connection and the encrypted-path pair are present it
calls flush_encrypted_db and discards its result; nothing else runs — in
particular run_backup is not invoked there or anywhere else. -/
def on_close_requested (A : AeadCore) (connPresent : Bool) (fs : VaultFs)
    (nonce : List Nat) : VaultFs × List FsOp :=
  if connPresent then
    match flush_encrypted_db A fs nonce with
    | Except.ok r => r
    | Except.error _ => (fs, [FsOp.checkpoint])
  else (fs, [])

/-! Concrete states for witnesses and counterexamples. -/

/-- Empty data directory and empty keyring (fresh install). -/
def scenarioFs0 : VaultFs :=
  { plain := none, encrypted := none, tmp := none, plainBackup := none,
    keystore := none, backups := [] }

/-- Directory holding only a legacy plaintext store of bytes [1, 2]. -/
def fsPlain0 : VaultFs :=
  { plain := some [1, 2], encrypted := none, tmp := none, plainBackup := none,
    keystore := none, backups := [] }

/-- Directory holding an artifact but no key (orphaned artifact). -/
def fsOrphan0 : VaultFs :=
  { plain := none, encrypted := some [1], tmp := none, plainBackup := none,
    keystore := none, backups := [] }

/-- Ready-session state: key stored, bytes [9, 9] sitting in the working
copy, awaiting a flush. -/
def fsReady0 : VaultFs :=
  { plain := none, encrypted := none, tmp := some [9, 9], plainBackup := none,
    keystore := some (set_db_key key0), backups := [] }

/-- Startup state with a stored key and an artifact encrypting [5]. -/
def fsReady1 : VaultFs :=
  { plain := none, encrypted := some (encrypt_file aead0 key0 nonce0 [5]),
    tmp := none, plainBackup := none,
    keystore := some (set_db_key key0), backups := [] }

/-- Result state of migrating fsPlain0 under a random key, for witnesses. -/
def fsMig0 : VaultFs := migrateFinish aead0 key0 fsPlain0 [1, 2] nonce0

/-- Fresh-install scenario of the spec: create_key with no passphrase, the
reopen through init_db, bytes [5, 6] written into the working copy during
the session, then the shutdown close event.  Returns the final files and the
trace of the shutdown handler. -/
def freshInstallShutdown : Option (VaultFs × List FsOp) :=
  match setup_create_key aead0 kdf0 scenarioFs0 none key0 nonce0 [5] with
  | Except.error _ => none
  | Except.ok fs1 =>
    match init_db aead0 fs1 [5] nonce0 with
    | InitDbResult.ready fs2 =>
      some (on_close_requested aead0 true { fs2 with tmp := some [5, 6] } nonce0)
    | _ => none

/-! Backup and replication manager (commands.rs). -/

/-- Retention count (commands.rs constant BACKUP_KEEP_COUNT). -/
def BACKUP_KEEP_COUNT : Nat := 7

/-- Backup naming convention of commands.rs (constants "vault-backup-" and
".encrypted"): the starts_with and ends_with filter of prune_backups_in_dir,
expressed over the character lists of the names. -/
def isBackupName (n : String) : Bool :=
  List.isPrefixOf "vault-backup-".data n.data &&
    List.isPrefixOf (".encrypted".data.reverse) n.data.reverse

/-- Directory entry as prune_backups_in_dir sees it: file name and
modification time (a metadata read failure defaults to the epoch, 0). -/
structure DirEntry where
  name : String
  mtime : Nat
deriving Repr, DecidableEq

/-- Comparator of the sort_by call: b compared to a, so most recent first. -/
def backupLe (a b : DirEntry) : Bool := Nat.ble b.mtime a.mtime

/-- Embedding of commands.rs prune_backups_in_dir, given as the list of
entries the call deletes: everything past the first `keep` of the matching
entries in most-recent-first order. -/
def prune_backups_in_dir (entries : List DirEntry) (keep : Nat) : List DirEntry :=
  ((entries.filter (fun e => isBackupName e.name)).mergeSort backupLe).drop keep

/-- Matching entries the same prune call retains. -/
def pruneKept (entries : List DirEntry) (keep : Nat) : List DirEntry :=
  ((entries.filter (fun e => isBackupName e.name)).mergeSort backupLe).take keep

/-- Outcomes of the externally-failable steps of commands.rs run_backup, in
source order: the primary steps (resolving the data directory, creating it,
creating the retention directory backups/, the fs::copy into it, the prune
over it) and the two settings reads are consumed with the ? operator, while
every step against the user-optional backup folder and sync folder is
discarded with let _ = or .ok(). -/
structure BackupEnv where
  appDataDir : Except String Unit
  createAppData : Except String Unit
  createBackupsDir : Except String Unit
  copyPrimary : Except String Unit
  prunePrimary : Except String Unit
  backupDirSetting : Except String (Option String)
  syncFolderSetting : Except String (Option String)
  createExtraDir : Except String Unit
  copyExtra : Except String Unit
  pruneExtra : Except String Unit
  createSyncDir : Except String Unit
  copySync : Except String Unit

/-- Embedding of commands.rs run_backup over the step outcomes. -/
def run_backup (e : BackupEnv) : Except String Unit := do
  let _ ← e.appDataDir
  let _ ← e.createAppData
  let _ ← e.createBackupsDir
  let _ ← e.copyPrimary
  let _ ← e.prunePrimary
  let extraOpt ← e.backupDirSetting
  match extraOpt with
  | some extra =>
    if (extra.trim).isEmpty = false then
      let _ := e.createExtraDir
      let _ := e.copyExtra
      let _ := e.pruneExtra
      pure ()
    else pure ()
  | none => pure ()
  let syncOpt ← e.syncFolderSetting
  match syncOpt with
  | some syncDir =>
    if (syncDir.trim).isEmpty = false then
      let _ := e.createSyncDir
      let _ := e.copySync
      pure ()
    else pure ()
  | none => pure ()

/-- Environment whose retention-directory creation fails; the optional-step
fields are deliberately failing too. -/
def envFailBackupsDir : BackupEnv :=
  { appDataDir := Except.ok (), createAppData := Except.ok (),
    createBackupsDir := Except.error "backups dir failed",
    copyPrimary := Except.ok (), prunePrimary := Except.ok (),
    backupDirSetting := Except.ok none, syncFolderSetting := Except.ok none,
    createExtraDir := Except.ok (), copyExtra := Except.ok (),
    pruneExtra := Except.ok (), createSyncDir := Except.ok (),
    copySync := Except.ok () }

/-- Environment whose primary retention copy fails. -/
def envFailPrimaryCopy : BackupEnv :=
  { appDataDir := Except.ok (), createAppData := Except.ok (),
    createBackupsDir := Except.ok (),
    copyPrimary := Except.error "primary copy failed",
    prunePrimary := Except.ok (),
    backupDirSetting := Except.ok none, syncFolderSetting := Except.ok none,
    createExtraDir := Except.ok (), copyExtra := Except.ok (),
    pruneExtra := Except.ok (), createSyncDir := Except.ok (),
    copySync := Except.ok () }

/-- Environment where the primary pipeline succeeds while every write to the
user-optional backup folder and sync folder fails. -/
def envOptionalFailures : BackupEnv :=
  { appDataDir := Except.ok (), createAppData := Except.ok (),
    createBackupsDir := Except.ok (), copyPrimary := Except.ok (),
    prunePrimary := Except.ok (),
    backupDirSetting := Except.ok (some " d "),
    syncFolderSetting := Except.ok (some "s"),
    createExtraDir := Except.error "extra dir failed",
    copyExtra := Except.error "extra copy failed",
    pruneExtra := Except.error "extra prune failed",
    createSyncDir := Except.error "sync dir failed",
    copySync := Except.error "sync copy failed" }

/-! Theorems. -/

theorem xorBytes_length (a b : List Nat) :
    (xorBytes a b).length = min a.length b.length := by
  simp [xorBytes]

theorem xorBytes_cancel (m ks : List Nat) (h : ks.length = m.length) :
    xorBytes (xorBytes m ks) ks = m := by
  induction m generalizing ks with
  | nil => simp [xorBytes]
  | cons x xs ih =>
    cases ks with
    | nil => simp at h
    | cons y ys =>
      simp only [List.length_cons, Nat.succ.injEq] at h
      simp [xorBytes] at ih ⊢
      exact ⟨Nat.xor_cancel_right y x, ih ys h⟩

theorem aeadSeal_length (A : AeadCore) (key nonce m : List Nat) :
    (aeadSeal A key nonce m).length = m.length + 16 := by
  simp [aeadSeal, xorBytes_length, A.ks_length, A.tagOf_length]

theorem aeadOpen_append (A : AeadCore) (key nonce ct tg : List Nat)
    (htg : tg.length = 16) :
    aeadOpen A key nonce (ct ++ tg) =
      if A.tagOf key nonce ct = tg then
        Except.ok (xorBytes ct (A.ks key nonce ct.length))
      else Except.error "aead::Error" := by
  have hlen : (ct ++ tg).length = ct.length + 16 := by simp [htg]
  have hsub : (ct ++ tg).length - 16 = ct.length := by omega
  rw [aeadOpen, if_neg (by omega)]
  simp only [hsub, List.take_left' rfl, List.drop_left' rfl]

theorem aeadOpen_aeadSeal (A : AeadCore) (key nonce m : List Nat) :
    aeadOpen A key nonce (aeadSeal A key nonce m) = Except.ok m := by
  have hct : (xorBytes m (A.ks key nonce m.length)).length = m.length := by
    simp [xorBytes_length, A.ks_length]
  rw [aeadSeal, aeadOpen_append A key nonce _ _ (A.tagOf_length key nonce _), if_pos rfl,
    hct, xorBytes_cancel m _ (A.ks_length key nonce m.length)]

/-- Shared round-trip helper: a 12-byte nonce is recovered from the front of
the artifact and the AEAD opens its own seal. -/
theorem decrypt_file_encrypt_file (A : AeadCore) (key nonce m : List Nat)
    (hnonce : nonce.length = 12) :
    decrypt_file A key (encrypt_file A key nonce m) = Except.ok m := by
  have hlen : (encrypt_file A key nonce m).length = 12 + (m.length + 16) := by
    simp [encrypt_file, aeadSeal_length, hnonce]
  rw [decrypt_file, if_neg (by omega)]
  rw [encrypt_file, List.take_left' hnonce, List.drop_left' hnonce, aeadOpen_aeadSeal]

/-- C4: for every AEAD core (hence for AES-256-GCM), every 32-byte key, every
12-byte nonce and every byte string m including the empty one, decrypting the
artifact produced by encrypt_file under the same key succeeds and returns
exactly m. -/
theorem encrypt_decrypt_roundtrip (A : AeadCore) (key nonce m : List Nat)
    (hkey : key.length = 32) (hnonce : nonce.length = 12) :
    decrypt_file A key (encrypt_file A key nonce m) = Except.ok m := by
  clear hkey
  exact decrypt_file_encrypt_file A key nonce m hnonce

/-- Witness for the round-trip theorem on a concrete core, key, nonce and on
both an empty and a non-empty message. -/
theorem encrypt_decrypt_roundtrip_witness :
    decrypt_file aead0 key0 (encrypt_file aead0 key0 nonce0 [1, 2, 3]) = Except.ok [1, 2, 3] ∧
    decrypt_file aead0 key0 (encrypt_file aead0 key0 nonce0 []) = Except.ok [] :=
  ⟨encrypt_decrypt_roundtrip aead0 key0 nonce0 [1, 2, 3] (by simp [key0]) (by simp [nonce0]),
   encrypt_decrypt_roundtrip aead0 key0 nonce0 [] (by simp [key0]) (by simp [nonce0])⟩

/-- C5: decrypt_file is total (never panics); it returns the dedicated error
for buffers shorter than the 12-byte nonce, and in every other failing case —
missing tag bytes or an authentication tag that does not verify, whether from
a wrong key, corruption or tampering — it returns one single generic error
value that does not depend on the key or the buffer, so a wrong key is not
distinguishable from corrupted data. -/
theorem decrypt_failure_cases (A : AeadCore) (key buf : List Nat) :
    (buf.length < 12 → decrypt_file A key buf = Except.error "Encrypted payload too short") ∧
    (12 ≤ buf.length → (buf.drop 12).length < 16 →
      decrypt_file A key buf = Except.error "aead::Error") ∧
    (12 ≤ buf.length → 16 ≤ (buf.drop 12).length →
      A.tagOf key (buf.take 12) ((buf.drop 12).take ((buf.drop 12).length - 16)) ≠
        (buf.drop 12).drop ((buf.drop 12).length - 16) →
      decrypt_file A key buf = Except.error "aead::Error") := by
  refine ⟨fun h => ?_, fun h hshort => ?_, fun h hlong htag => ?_⟩
  · rw [decrypt_file, if_pos h]
  · rw [decrypt_file, if_neg (by omega), aeadOpen, if_pos hshort]
  · rw [decrypt_file, if_neg (by omega), aeadOpen, if_neg (by omega), if_neg htag]

/-- Witness for the decryption failure theorem: a 1-byte buffer is rejected as
too short, a 20-byte buffer lacks a full tag, and a 40-byte buffer whose
stored tag disagrees with the recomputed one fails with the generic error. -/
theorem decrypt_failure_cases_witness :
    decrypt_file aead0 key0 [0] = Except.error "Encrypted payload too short" ∧
    decrypt_file aead0 key0 (List.replicate 20 0) = Except.error "aead::Error" ∧
    decrypt_file aead0 key0 (List.replicate 40 0) = Except.error "aead::Error" :=
  ⟨(decrypt_failure_cases aead0 key0 [0]).1 (by decide),
   (decrypt_failure_cases aead0 key0 (List.replicate 20 0)).2.1 (by decide) (by decide),
   (decrypt_failure_cases aead0 key0 (List.replicate 40 0)).2.2 (by decide) (by decide)
     (by decide)⟩

theorem b64CharVal_b64Char : ∀ v : Nat, v < 64 → b64CharVal (b64Char v) = some v := by
  decide

theorem b64Char_ne_pad : ∀ v : Nat, v < 64 → b64Char v ≠ '=' := by
  decide

theorem b64_roundtrip :
    ∀ l : List Nat, (∀ x ∈ l, x < 256) → b64DecodeGroups (b64EncodeGroups l) = some l
  | [], _ => rfl
  | [x], h => by
    have hx : x < 256 := h x (by simp)
    simp only [b64EncodeGroups, b64DecodeGroups,
      b64CharVal_b64Char (x / 4) (by omega), b64CharVal_b64Char (x % 4 * 16) (by omega)]
    have hz : x % 4 * 16 % 16 = 0 := by omega
    have e1 : x / 4 * 4 + x % 4 * 16 / 16 = x := by omega
    simp [hz, e1] <;> omega
  | [x, y], h => by
    have hx : x < 256 := h x (by simp)
    have hy : y < 256 := h y (by simp)
    simp only [b64EncodeGroups, b64DecodeGroups,
      b64CharVal_b64Char (x / 4) (by omega),
      b64CharVal_b64Char (x % 4 * 16 + y / 16) (by omega),
      b64CharVal_b64Char (y % 16 * 4) (by omega)]
    have hne : b64Char (y % 16 * 4) ≠ '=' := b64Char_ne_pad _ (by omega)
    have hz : y % 16 * 4 % 4 = 0 := by omega
    have e1 : x / 4 * 4 + (x % 4 * 16 + y / 16) / 16 = x := by omega
    simp [hne, hz, e1] <;> omega
  | x :: y :: z :: w :: rest, h => by
    have hx : x < 256 := h x (by simp)
    have hy : y < 256 := h y (by simp)
    have hz : z < 256 := h z (by simp)
    have ih := b64_roundtrip (w :: rest) (fun a ha =>
      h a (List.mem_cons_of_mem x (List.mem_cons_of_mem y (List.mem_cons_of_mem z ha))))
    simp only [b64EncodeGroups, b64DecodeGroups,
      b64CharVal_b64Char (x / 4) (by omega),
      b64CharVal_b64Char (x % 4 * 16 + y / 16) (by omega),
      b64CharVal_b64Char (y % 16 * 4 + z / 64) (by omega),
      b64CharVal_b64Char (z % 64) (by omega)]
    have hne1 : b64Char (y % 16 * 4 + z / 64) ≠ '=' := b64Char_ne_pad _ (by omega)
    have hne2 : b64Char (z % 64) ≠ '=' := b64Char_ne_pad _ (by omega)
    have e1 : x / 4 * 4 + (x % 4 * 16 + y / 16) / 16 = x := by omega
    have e2 : (x % 4 * 16 + y / 16) % 16 * 16 + (y % 16 * 4 + z / 64) / 4 = y := by omega
    have e3 : (y % 16 * 4 + z / 64) % 4 * 64 + z % 64 = z := by omega
    simp [hne1, hne2, ih, e1, e2, e3] <;> omega
  | [x, y, z], h => by
    have hx : x < 256 := h x (by simp)
    have hy : y < 256 := h y (by simp)
    have hz : z < 256 := h z (by simp)
    simp only [b64EncodeGroups, b64DecodeGroups,
      b64CharVal_b64Char (x / 4) (by omega),
      b64CharVal_b64Char (x % 4 * 16 + y / 16) (by omega),
      b64CharVal_b64Char (y % 16 * 4 + z / 64) (by omega),
      b64CharVal_b64Char (z % 64) (by omega)]
    have hne1 : b64Char (y % 16 * 4 + z / 64) ≠ '=' := b64Char_ne_pad _ (by omega)
    have hne2 : b64Char (z % 64) ≠ '=' := b64Char_ne_pad _ (by omega)
    have e1 : x / 4 * 4 + (x % 4 * 16 + y / 16) / 16 = x := by omega
    have e2 : (x % 4 * 16 + y / 16) % 16 * 16 + (y % 16 * 4 + z / 64) / 4 = y := by omega
    have e3 : (y % 16 * 4 + z / 64) % 4 * 64 + z % 64 = z := by omega
    simp [hne1, hne2, e1, e2, e3] <;> omega

theorem get_db_key_set_db_key (key : List Nat) (h32 : key.length = 32)
    (hb : ∀ x ∈ key, x < 256) :
    get_db_key (some (set_db_key key)) = Except.ok (some key) := by
  simp [get_db_key, set_db_key, base64_decode, base64_encode, b64_roundtrip key hb, h32]

/-- C9 counterexample: a stored value that is not valid base64 makes
get_db_key return an error, not None — refuting the claim that every stored
secret that does not decode to exactly 32 bytes yields None. -/
theorem get_db_key_invalid_base64_counterexample :
    get_db_key (some "!!!") ≠ Except.ok none := by
  have hdec : base64_decode "!!!" = none := rfl
  simp [get_db_key, hdec]

/-- C9 amended: get_db_key returns None when the secret is absent and when a
stored value decodes to a byte string whose length is not 32; a stored value
that is not valid base64 is returned as an error instead (and a 32-byte
decode is returned as the key). -/
theorem get_db_key_amended (s : String) (bytes : List Nat) :
    (get_db_key none = Except.ok none) ∧
    (base64_decode s = none → ∃ e, get_db_key (some s) = Except.error e) ∧
    (base64_decode s = some bytes → bytes.length ≠ 32 → get_db_key (some s) = Except.ok none) ∧
    (base64_decode s = some bytes → bytes.length = 32 →
      get_db_key (some s) = Except.ok (some bytes)) := by
  refine ⟨rfl, fun h => ?_, fun h hlen => ?_, fun h hlen => ?_⟩
  · exact ⟨"invalid base64 in keyring entry", by simp [get_db_key, h]⟩
  · simp [get_db_key, h, hlen]
  · simp [get_db_key, h, hlen]

/-- Witness for the amended get_db_key theorem: an invalid stored value
errors, the empty string decodes to zero bytes and yields None, and the
encoding of a 32-byte key is returned as that key. -/
theorem get_db_key_amended_witness :
    (∃ e, get_db_key (some "!!!") = Except.error e) ∧
    get_db_key (some "") = Except.ok none ∧
    get_db_key (some (base64_encode (List.replicate 32 0))) =
      Except.ok (some (List.replicate 32 0)) :=
  ⟨(get_db_key_amended "!!!" []).2.1 rfl,
   (get_db_key_amended "" []).2.2.1 rfl (by decide),
   (get_db_key_amended (base64_encode (List.replicate 32 0)) (List.replicate 32 0)).2.2.2
     (b64_roundtrip (List.replicate 32 0) (by simp)) (by simp)⟩

/-- C1 counterexample: on a concrete Ready state the successful flush writes
the new ciphertext directly to the canonical artifact path and performs no
rename at all, refuting the write-then-rename replacement the claim
states. -/
theorem flush_in_place_counterexample :
    (flush_encrypted_db aead0 fsReady0 nonce0).map
        (fun r => (r.2.any FsOp.writesCanonical, r.2.any FsOp.isRename)) =
      Except.ok (true, false) := rfl

/-- C1 amended: every successful flush checkpoints, reads the working copy
and then writes the new ciphertext directly to the canonical artifact path —
a single in-place write with no temporary file and no rename, so replacement
of the canonical artifact is not atomic. -/
theorem flush_writes_canonical_in_place (A : AeadCore) (fs : VaultFs)
    (nonce key m : List Nat)
    (hkey : get_db_key fs.keystore = Except.ok (some key)) (htmp : fs.tmp = some m) :
    flush_encrypted_db A fs nonce =
      Except.ok ({ fs with encrypted := some (encrypt_file A key nonce m) },
        [FsOp.checkpoint, FsOp.readFile VAULT_DB_TMP,
         FsOp.writeFile VAULT_DB_ENCRYPTED (encrypt_file A key nonce m)]) := by
  simp [flush_encrypted_db, hkey, htmp]

/-- Witness for the amended flush theorem on the concrete Ready state. -/
theorem flush_writes_canonical_in_place_witness :
    flush_encrypted_db aead0 fsReady0 nonce0 =
      Except.ok ({ fsReady0 with encrypted := some (encrypt_file aead0 key0 nonce0 [9, 9]) },
        [FsOp.checkpoint, FsOp.readFile VAULT_DB_TMP,
         FsOp.writeFile VAULT_DB_ENCRYPTED (encrypt_file aead0 key0 nonce0 [9, 9])]) :=
  flush_writes_canonical_in_place aead0 fsReady0 nonce0 key0 [9, 9] rfl rfl

/-- C2: executing the fresh-install scenario (create_key with no passphrase,
reopen through init_db, a session write into the working copy, then the
shutdown close event) leaves zero files in the retention directory and the
shutdown handler performs no copy operation — lib.rs never invokes
run_backup after the flush — even though the flush itself succeeded and the
canonical artifact exists.  The spec scenario instead requires exactly one
backup file. -/
theorem fresh_install_shutdown_no_backup :
    freshInstallShutdown.map
        (fun r => (r.1.backups.length, r.2.any FsOp.isCopy, r.1.encrypted.isSome)) =
      some (0, false, true) := rfl

/-- C3: the startup state machine of init_db — no key, no legacy file, no
artifact is NeedsSetup FirstRun; no key with a legacy file present is
NeedsSetup MigratePlain; no key with an artifact and no legacy file is the
fatal orphaned-artifact error; a key whose artifact decrypts puts the
plaintext into the working copy and is Ready. -/
theorem init_db_state_machine (A : AeadCore) (fs : VaultFs)
    (freshDb nonce key m ct : List Nat) :
    (get_db_key fs.keystore = Except.ok none → fs.plain = none → fs.encrypted = none →
      init_db A fs freshDb nonce = InitDbResult.needSetup SetupReason.firstRun) ∧
    (get_db_key fs.keystore = Except.ok none → fs.plain.isSome = true →
      init_db A fs freshDb nonce = InitDbResult.needSetup SetupReason.migratePlain) ∧
    (get_db_key fs.keystore = Except.ok none → fs.plain = none → fs.encrypted.isSome = true →
      init_db A fs freshDb nonce =
        InitDbResult.other "Encrypted DB exists but no key in keychain") ∧
    (get_db_key fs.keystore = Except.ok (some key) → fs.encrypted = some ct →
      decrypt_file A key ct = Except.ok m →
      init_db A fs freshDb nonce = InitDbResult.ready { fs with tmp := some m }) := by
  refine ⟨fun h1 h2 h3 => ?_, fun h1 h2 => ?_, fun h1 h2 h3 => ?_, fun h1 h2 h3 => ?_⟩
  · simp [init_db, h1, h2, h3]
  · simp [init_db, h1, h2]
  · simp [init_db, h1, h2, h3]
  · simp [init_db, h1, h2, h3]

/-- Witness for the startup state machine on four concrete directory
states, one per row. -/
theorem init_db_state_machine_witness :
    init_db aead0 scenarioFs0 [5] nonce0 = InitDbResult.needSetup SetupReason.firstRun ∧
    init_db aead0 fsPlain0 [5] nonce0 = InitDbResult.needSetup SetupReason.migratePlain ∧
    init_db aead0 fsOrphan0 [5] nonce0 =
      InitDbResult.other "Encrypted DB exists but no key in keychain" ∧
    init_db aead0 fsReady1 [5] nonce0 = InitDbResult.ready { fsReady1 with tmp := some [5] } :=
  ⟨(init_db_state_machine aead0 scenarioFs0 [5] nonce0 key0 [] []).1 rfl rfl rfl,
   (init_db_state_machine aead0 fsPlain0 [5] nonce0 key0 [] []).2.1 rfl rfl,
   (init_db_state_machine aead0 fsOrphan0 [5] nonce0 key0 [] []).2.2.1 rfl rfl rfl,
   (init_db_state_machine aead0 fsReady1 [5] nonce0 key0 [5]
      (encrypt_file aead0 key0 nonce0 [5])).2.2.2 rfl rfl rfl⟩

/-- C6: migrate_plain fails when the legacy plaintext is missing; on success
the legacy file is gone from its original path yet preserved in full as the
rename backup, and the stored key — as recovered from the keyring — decrypts
the new canonical artifact to exactly the original legacy bytes. -/
theorem migrate_plain_correct (A : AeadCore) (kdf : String → List Nat)
    (fs fs' : VaultFs) (pOpt : Option String) (randomKey nonce m : List Nat) :
    (fs.plain = none →
      migrate_plain_to_encrypted A kdf fs pOpt randomKey nonce =
        Except.error "Plain vault.db bulunamadı") ∧
    (fs.plain = some m →
      migrate_plain_to_encrypted A kdf fs pOpt randomKey nonce = Except.ok fs' →
      nonce.length = 12 →
      (∀ p, (kdf p).length = 32 ∧ ∀ x ∈ kdf p, x < 256) →
      (randomKey.length = 32 ∧ ∀ x ∈ randomKey, x < 256) →
      fs'.plain = none ∧ fs'.plainBackup = some m ∧
      ∃ key, get_db_key fs'.keystore = Except.ok (some key) ∧
        fs'.encrypted = some (encrypt_file A key nonce m) ∧
        decrypt_file A key (encrypt_file A key nonce m) = Except.ok m) := by
  constructor
  · intro h
    simp [migrate_plain_to_encrypted, h]
  · intro h hrun hnonce hkdf hrk
    simp only [migrate_plain_to_encrypted, h] at hrun
    cases pOpt with
    | none =>
      simp only [Except.ok.injEq] at hrun
      subst hrun
      exact ⟨rfl, rfl, randomKey, get_db_key_set_db_key randomKey hrk.1 hrk.2, rfl,
        decrypt_file_encrypt_file A randomKey nonce m hnonce⟩
    | some p =>
      by_cases hp : p.isEmpty = true
      · simp [hp] at hrun
      · simp [hp] at hrun
        subst hrun
        exact ⟨rfl, rfl, kdf p, get_db_key_set_db_key (kdf p) (hkdf p).1 (hkdf p).2, rfl,
          decrypt_file_encrypt_file A (kdf p) nonce m hnonce⟩

/-- Witness for the migration theorem: the missing-legacy error on the empty
directory, and the full success conclusion on the directory holding legacy
bytes [1, 2]. -/
theorem migrate_plain_correct_witness :
    (migrate_plain_to_encrypted aead0 kdf0 scenarioFs0 none key0 nonce0 =
        Except.error "Plain vault.db bulunamadı") ∧
    (fsMig0.plain = none ∧ fsMig0.plainBackup = some [1, 2] ∧
      ∃ key, get_db_key fsMig0.keystore = Except.ok (some key) ∧
        fsMig0.encrypted = some (encrypt_file aead0 key nonce0 [1, 2]) ∧
        decrypt_file aead0 key (encrypt_file aead0 key nonce0 [1, 2]) = Except.ok [1, 2]) :=
  ⟨(migrate_plain_correct aead0 kdf0 scenarioFs0 fsMig0 none key0 nonce0 [1, 2]).1 rfl,
   (migrate_plain_correct aead0 kdf0 fsPlain0 fsMig0 none key0 nonce0 [1, 2]).2 rfl rfl
     (by simp [nonce0]) (fun p => ⟨by simp [kdf0], by simp [kdf0]⟩)
     ⟨by simp [key0], by simp [key0]⟩⟩

/-- C10 counterexample: a single-space passphrase passes the p.is_empty()
guard, so setup_create_key succeeds — deriving and storing a key from the
whitespace-only passphrase — instead of failing with the EmptyPassphrase
error. -/
theorem whitespace_passphrase_accepted :
    setup_create_key aead0 kdf0 scenarioFs0 (some " ") key0 nonce0 [5] =
      Except.ok (setupFinish aead0 (kdf0 " ") scenarioFs0 [5] nonce0) := rfl

/-- C10 amended: the guard rejects exactly the empty passphrase: create_key
with an empty passphrase fails with the EmptyPassphrase error before any key
is derived or stored, and so does migrate_plain whenever the legacy
plaintext exists; whitespace-only passphrases are accepted. -/
theorem empty_passphrase_rejected (A : AeadCore) (kdf : String → List Nat)
    (fs : VaultFs) (randomKey nonce freshDb m : List Nat) :
    (setup_create_key A kdf fs (some "") randomKey nonce freshDb =
        Except.error "Passphrase boş olamaz") ∧
    (fs.plain = some m →
      migrate_plain_to_encrypted A kdf fs (some "") randomKey nonce =
        Except.error "Passphrase boş olamaz") := by
  constructor
  · rfl
  · intro h
    simp only [migrate_plain_to_encrypted, h]
    rfl

/-- Witness for the empty-passphrase theorem on concrete states. -/
theorem empty_passphrase_rejected_witness :
    (setup_create_key aead0 kdf0 fsPlain0 (some "") key0 nonce0 [5] =
        Except.error "Passphrase boş olamaz") ∧
    (migrate_plain_to_encrypted aead0 kdf0 fsPlain0 (some "") key0 nonce0 =
        Except.error "Passphrase boş olamaz") :=
  ⟨(empty_passphrase_rejected aead0 kdf0 fsPlain0 key0 nonce0 [5] [1, 2]).1,
   (empty_passphrase_rejected aead0 kdf0 fsPlain0 key0 nonce0 [5] [1, 2]).2 rfl⟩

theorem backupLe_trans (a b c : DirEntry) (h1 : backupLe a b = true)
    (h2 : backupLe b c = true) : backupLe a c = true := by
  simp [backupLe, Nat.ble_eq] at h1 h2 ⊢
  omega

theorem backupLe_total (a b : DirEntry) : (backupLe a b || backupLe b a) = true := by
  simp [backupLe, Nat.ble_eq]
  omega

/-- C7: the prune call with the fixed keep count 7 deletes only files that
match the backup naming convention, deletes exactly the excess beyond seven
of the matching files — so never more than count minus keep — every retained
matching file is at least as recent as every deleted one, and nothing is
deleted when at most seven files match. -/
theorem prune_backups_retention (entries : List DirEntry) :
    (∀ e ∈ prune_backups_in_dir entries BACKUP_KEEP_COUNT, isBackupName e.name = true) ∧
    ((prune_backups_in_dir entries BACKUP_KEEP_COUNT).length =
      (entries.filter (fun e => isBackupName e.name)).length - BACKUP_KEEP_COUNT) ∧
    (∀ x ∈ pruneKept entries BACKUP_KEEP_COUNT,
      ∀ y ∈ prune_backups_in_dir entries BACKUP_KEEP_COUNT, y.mtime ≤ x.mtime) ∧
    ((entries.filter (fun e => isBackupName e.name)).length ≤ BACKUP_KEEP_COUNT →
      prune_backups_in_dir entries BACKUP_KEEP_COUNT = []) := by
  refine ⟨?_, ?_, ?_, ?_⟩
  · intro e he
    have h1 : e ∈ (entries.filter (fun e => isBackupName e.name)).mergeSort backupLe :=
      List.mem_of_mem_drop he
    have h2 : e ∈ entries.filter (fun e => isBackupName e.name) :=
      List.mem_mergeSort.mp h1
    exact (List.mem_filter.mp h2).2
  · simp [prune_backups_in_dir, List.length_mergeSort]
  · intro x hx y hy
    have hpw : ((entries.filter (fun e => isBackupName e.name)).mergeSort backupLe).Pairwise
        (fun a b => backupLe a b = true) :=
      List.sorted_mergeSort (fun a b c => backupLe_trans a b c) backupLe_total _
    rw [← List.take_append_drop BACKUP_KEEP_COUNT
      ((entries.filter (fun e => isBackupName e.name)).mergeSort backupLe)] at hpw
    have := (List.pairwise_append.mp hpw).2.2 x hx y hy
    simpa [backupLe, Nat.ble_eq] using this
  · intro hle
    apply List.drop_eq_nil_of_le
    rw [List.length_mergeSort]
    exact hle

/-- Witness for the prune theorem: a directory with two matching and one
non-matching file loses nothing; a directory with nine matching files loses
exactly two. -/
theorem prune_backups_retention_witness :
    prune_backups_in_dir
        [⟨"vault-backup-a.encrypted", 1⟩, ⟨"other.txt", 99⟩,
         ⟨"vault-backup-b.encrypted", 2⟩] BACKUP_KEEP_COUNT = [] ∧
    (prune_backups_in_dir
        [⟨"vault-backup-1.encrypted", 1⟩, ⟨"vault-backup-2.encrypted", 2⟩,
         ⟨"vault-backup-3.encrypted", 3⟩, ⟨"vault-backup-4.encrypted", 4⟩,
         ⟨"vault-backup-5.encrypted", 5⟩, ⟨"vault-backup-6.encrypted", 6⟩,
         ⟨"vault-backup-7.encrypted", 7⟩, ⟨"vault-backup-8.encrypted", 8⟩,
         ⟨"vault-backup-9.encrypted", 9⟩] BACKUP_KEEP_COUNT).length =
      ([⟨"vault-backup-1.encrypted", 1⟩, ⟨"vault-backup-2.encrypted", 2⟩,
         ⟨"vault-backup-3.encrypted", 3⟩, ⟨"vault-backup-4.encrypted", 4⟩,
         ⟨"vault-backup-5.encrypted", 5⟩, ⟨"vault-backup-6.encrypted", 6⟩,
         ⟨"vault-backup-7.encrypted", 7⟩, ⟨"vault-backup-8.encrypted", 8⟩,
         ⟨"vault-backup-9.encrypted", 9⟩].filter
           (fun e : DirEntry => isBackupName e.name)).length - BACKUP_KEEP_COUNT :=
  ⟨(prune_backups_retention
      [⟨"vault-backup-a.encrypted", 1⟩, ⟨"other.txt", 99⟩,
       ⟨"vault-backup-b.encrypted", 2⟩]).2.2.2 (by decide),
   (prune_backups_retention
      [⟨"vault-backup-1.encrypted", 1⟩, ⟨"vault-backup-2.encrypted", 2⟩,
       ⟨"vault-backup-3.encrypted", 3⟩, ⟨"vault-backup-4.encrypted", 4⟩,
       ⟨"vault-backup-5.encrypted", 5⟩, ⟨"vault-backup-6.encrypted", 6⟩,
       ⟨"vault-backup-7.encrypted", 7⟩, ⟨"vault-backup-8.encrypted", 8⟩,
       ⟨"vault-backup-9.encrypted", 9⟩]).2.1⟩

/-- C8: run_backup surfaces a failure of creating the retention directory
and a failure of the primary retention copy to its caller, while it returns
success whenever the primary pipeline (data directory, retention directory,
primary copy, prune) and the two settings reads succeed — for every outcome
of the operations against the user-optional backup and sync folders, whose
failures are swallowed. -/
theorem run_backup_error_policy (e : BackupEnv) (s : String) :
    (e.appDataDir = Except.ok () → e.createAppData = Except.ok () →
      e.createBackupsDir = Except.error s → run_backup e = Except.error s) ∧
    (e.appDataDir = Except.ok () → e.createAppData = Except.ok () →
      e.createBackupsDir = Except.ok () → e.copyPrimary = Except.error s →
      run_backup e = Except.error s) ∧
    (∀ bset sset : Option String,
      e.appDataDir = Except.ok () → e.createAppData = Except.ok () →
      e.createBackupsDir = Except.ok () → e.copyPrimary = Except.ok () →
      e.prunePrimary = Except.ok () → e.backupDirSetting = Except.ok bset →
      e.syncFolderSetting = Except.ok sset → run_backup e = Except.ok ()) := by
  refine ⟨fun h1 h2 h3 => ?_, fun h1 h2 h3 h4 => ?_,
    fun bset sset h1 h2 h3 h4 h5 h6 h7 => ?_⟩
  · simp [run_backup, h1, h2, h3, Bind.bind, Except.bind]
  · simp [run_backup, h1, h2, h3, h4, Bind.bind, Except.bind]
  · cases bset <;> cases sset <;>
      simp [run_backup, h1, h2, h3, h4, h5, h6, h7, Bind.bind, Except.bind, ite_self,
        pure, Except.pure]

/-- Witness for the run_backup error policy: the two primary failures are
returned, and a run whose every optional-folder operation fails still
succeeds. -/
theorem run_backup_error_policy_witness :
    run_backup envFailBackupsDir = Except.error "backups dir failed" ∧
    run_backup envFailPrimaryCopy = Except.error "primary copy failed" ∧
    run_backup envOptionalFailures = Except.ok () :=
  ⟨(run_backup_error_policy envFailBackupsDir "backups dir failed").1 rfl rfl rfl,
   (run_backup_error_policy envFailPrimaryCopy "primary copy failed").2.1 rfl rfl rfl rfl,
   (run_backup_error_policy envOptionalFailures "unused").2.2 (some " d ") (some "s")
     rfl rfl rfl rfl rfl rfl rfl⟩

end VaultCRM
